import Mathlib

/-!
Shallow embedding of `build/rocm/run_single_gpu.py`: a concurrent
single-GPU test scheduler.  The embedding models

* the pytest JSON report documents patched by `append_abort_to_json`,
* the pytest-html documents patched by `append_abort_to_html`,
* the `LAST_CODE` fail-fast protocol of `run_test` / `main`,
* the GPU token pool protocol of `run_test` / `run_parallel` as a
  step relation over interleavings of the worker threads,
* the report aggregation of `combine_json_reports` /
  `generate_final_report`,
* the environment construction of `run_shell_command`, and
* the file-system effects of the abort-sentinel handling in `run_test`.

Python dictionaries with a fixed key set become structures; keys that the
code accesses with `dict.get(k, d)` or guards with `"k" in d` become
`Option` fields.  Subprocess invocations and wall-clock reads are oracles
passed in as arguments.  Exceptions are modelled with `Except`.
-/

namespace RunSingleGpu

/-- Outcome record for one pytest phase (`setup` / `call` / `teardown`)
as built for the synthetic abort test in `append_abort_to_json`. -/
structure StageInfo where
  duration : Int
  outcome : String
  longrepr : Option String
  deriving Repr, DecidableEq

/-- One entry of the `tests` array of a pytest JSON report. -/
structure TestCase where
  nodeid : String
  lineno : Nat
  outcome : String
  keywords : List String
  setup : StageInfo
  call : StageInfo
  teardown : StageInfo
  deriving Repr, DecidableEq

/-- The `summary` object of a pytest JSON report.  Every field is
optional because `append_abort_to_json` reads them with
`summary.get(key, 0)` and guards `unskipped_total` with a membership
test. -/
structure Summary where
  passed : Option Nat
  failed : Option Nat
  total : Option Nat
  collected : Option Nat
  unskipped_total : Option Nat
  deriving Repr, DecidableEq

/-- One entry of a collector's `result` array. -/
structure CollectorEntry where
  nodeid : String
  type : String
  deriving Repr, DecidableEq

/-- One entry of the `collectors` array of a pytest JSON report. -/
structure Collector where
  nodeid : String
  outcome : String
  result : List CollectorEntry
  deriving Repr, DecidableEq

/-- A pytest JSON report document (`*_log.json`).  `summary` and `tests`
are optional because `append_abort_to_json` guards both
(`if "summary" in report_data`, `if "tests" not in report_data`). -/
structure Report where
  created : Int
  duration : Int
  exitcode : Int
  root : String
  environment : List (String × String)
  summary : Option Summary
  collectors : List Collector
  tests : Option (List TestCase)
  deriving Repr, DecidableEq

/-- The `abort_info` dictionary assembled in `run_test` from the
`*_last_running.json` sentinel. -/
structure AbortInfo where
  test_name : String
  reason : String
  abort_time : String
  duration : Int
  gpu_id : String
  deriving Repr, DecidableEq

/-- The synthetic failed test case (`abort_test` in
`append_abort_to_json`). -/
def abort_test (testfile : String) (info : AbortInfo) : TestCase where
  nodeid := "tests/" ++ testfile ++ ".py::" ++ info.test_name
  lineno := 1
  outcome := "failed"
  keywords := [info.test_name, testfile, "abort", ""]
  setup := { duration := 0, outcome := "passed", longrepr := none }
  call :=
    { duration := info.duration
      outcome := "failed"
      longrepr := some ("Test aborted: " ++ info.reason ++
        "\nAbort detected at: " ++ info.abort_time ++
        "\nGPU ID: " ++ info.gpu_id) }
  teardown := { duration := 0, outcome := "skipped", longrepr := none }

/-- The fresh report built by `append_abort_to_json` when no
`*_log.json` file exists (and identically in its JSON-decode-error
fallback). -/
def fresh_abort_report (now : Int) (testfile : String) (info : AbortInfo) :
    Report where
  created := now
  duration := info.duration
  exitcode := 1
  root := "/rocm-jax/jax"
  environment := []
  summary := some
    { passed := some 0, failed := some 1, total := some 1
      collected := some 1, unskipped_total := some 1 }
  collectors :=
    [{ nodeid := "", outcome := "failed"
       result := [{ nodeid := "tests/" ++ testfile ++ ".py", type := "Module" }] }]
  tests := some [abort_test testfile info]

/-- The summary update of `append_abort_to_json` on an existing report:
`failed`, `total` and `collected` are read with default 0 and
incremented; `unskipped_total` is incremented only when present. -/
def bump_summary (s : Summary) : Summary where
  passed := s.passed
  failed := some (s.failed.getD 0 + 1)
  total := some (s.total.getD 0 + 1)
  collected := some (s.collected.getD 0 + 1)
  unskipped_total := s.unskipped_total.map (· + 1)

/-- Embedding of `append_abort_to_json`.  `existing` is the parsed
`*_log.json` file when it exists (`none` models a missing file; the
JSON-decode-error fallback builds the same fresh report as the missing
case).  On an existing report the synthetic case is appended to `tests`
(created as `[]` first when absent), the summary is bumped when present,
and `exitcode` is set to 1. -/
def append_abort_to_json (now : Int) (existing : Option Report)
    (testfile : String) (info : AbortInfo) : Report :=
  match existing with
  | some r =>
      { r with
        tests := some (r.tests.getD [] ++ [abort_test testfile info])
        summary := r.summary.map bump_summary
        exitcode := 1 }
  | none => fresh_abort_report now testfile info

/-- Number of entries of a case list whose `outcome` is `"failed"`. -/
def countFailed (l : List TestCase) : Nat :=
  (l.filter (fun t => t.outcome = "failed")).length

/-- A JSON report is consistent when its summary is present and its
`total` and `collected` counters equal the length of its `tests` list
while `failed` equals the number of failed entries. -/
def json_consistent (r : Report) : Bool :=
  match r.summary, r.tests with
  | some s, some l =>
      s.total == some l.length && s.collected == some l.length &&
        s.failed == some (countFailed l)
  | _, _ => false

end RunSingleGpu

namespace RunSingleGpu

/-- Sample abort info used by concrete witnesses. -/
def sampleInfo : AbortInfo where
  test_name := "test_crash"
  reason := "Test aborted or crashed."
  abort_time := "2026-01-01T00:00:00"
  duration := 5
  gpu_id := "0"

/-- Sample pre-existing report with summary `{failed: 0, total: 3}` used
by concrete witnesses. -/
def sampleReport : Report where
  created := 0
  duration := 9
  exitcode := 0
  root := "/rocm-jax/jax"
  environment := []
  summary := some
    { passed := some 3, failed := some 0, total := some 3
      collected := some 3, unskipped_total := none }
  collectors := []
  tests := some
    [abort_test "a" sampleInfo, abort_test "b" sampleInfo,
     abort_test "c" sampleInfo]

end RunSingleGpu

namespace RunSingleGpu

/-- C2: with no existing report, `append_abort_to_json` yields summary
`{passed: 0, failed: 1, total: 1, collected: 1}` and a single synthetic
failed case; on an existing report with summary `{failed: 0, total: 3}`
it yields `failed = 1`, `total = 4`, `collected = prior + 1`, appends
exactly one synthetic case, and sets the exit code to 1. -/
theorem abort_merge_counts (now : Int) (r : Report) (s : Summary)
    (tf : String) (info : AbortInfo) (hs : r.summary = some s)
    (hf : s.failed = some 0) (ht : s.total = some 3) :
    ((append_abort_to_json now none tf info).summary =
        some { passed := some 0, failed := some 1, total := some 1,
               collected := some 1, unskipped_total := some 1 } ∧
      (append_abort_to_json now none tf info).tests =
        some [abort_test tf info]) ∧
    ((append_abort_to_json now (some r) tf info).summary =
        some { passed := s.passed, failed := some 1, total := some 4,
               collected := some (s.collected.getD 0 + 1),
               unskipped_total := s.unskipped_total.map (· + 1) } ∧
      (append_abort_to_json now (some r) tf info).tests =
        some (r.tests.getD [] ++ [abort_test tf info]) ∧
      (append_abort_to_json now (some r) tf info).exitcode = 1) := by
  refine ⟨⟨rfl, rfl⟩, ?_, rfl, rfl⟩
  simp [append_abort_to_json, hs, bump_summary, hf, ht]

/-- Witness for C2 at a concrete report with summary
`{failed: 0, total: 3, collected: 3}`. -/
theorem abort_merge_counts_witness :
    ((append_abort_to_json 7 none "x" sampleInfo).summary =
        some { passed := some 0, failed := some 1, total := some 1,
               collected := some 1, unskipped_total := some 1 } ∧
      (append_abort_to_json 7 none "x" sampleInfo).tests =
        some [abort_test "x" sampleInfo]) ∧
    ((append_abort_to_json 7 (some sampleReport) "x" sampleInfo).summary =
        some { passed := some 3, failed := some 1, total := some 4,
               collected := some (3 + 1),
               unskipped_total := none } ∧
      (append_abort_to_json 7 (some sampleReport) "x" sampleInfo).tests =
        some (sampleReport.tests.getD [] ++ [abort_test "x" sampleInfo]) ∧
      (append_abort_to_json 7 (some sampleReport) "x" sampleInfo).exitcode = 1) :=
  abort_merge_counts 7 sampleReport
    { passed := some 3, failed := some 0, total := some 3
      collected := some 3, unskipped_total := none }
    "x" sampleInfo rfl rfl rfl

end RunSingleGpu

namespace RunSingleGpu

/-- Zero-padded two-digit rendering used by the `f"{n:02d}"` format in
`append_abort_to_html`. -/
def pad2 (n : Int) : String :=
  if 0 ≤ n ∧ n < 10 then "0" ++ toString n else toString n

/-- The `HH:MM:SS` duration string computed by `append_abort_to_html`
and `_create_new_html_file` (Python `//` and `%` floor-divide, hence
`Int.fdiv` / `Int.fmod`). -/
def duration_str (duration : Int) : String :=
  pad2 (duration.fdiv 3600) ++ ":" ++ pad2 ((duration.fmod 3600).fdiv 60) ++
    ":" ++ pad2 (duration.fmod 60)

/-- One row of the `results-table` of a pytest-html document (the three
data cells the abort row fills in). -/
structure HtmlRow where
  result : String
  name : String
  dur : String
  deriving Repr, DecidableEq

/-- One entry of the `data-jsonblob` embedded test collection. -/
structure BlobTest where
  testId : String
  id : String
  log : String
  result : String
  deriving Repr, DecidableEq

/-- Typed model of a pytest-html document (`*_log.html`) at the
granularity the string patches of `append_abort_to_html` operate on.
Each `Option` counter models at most one occurrence of the string its
regex scans for (`ran_in` for `"N tests ran in"`, `took` for
`"N tests took"`, `failed_str` for `"N Failed"`); `malformed_done`
models a `"X/Y test done."` fragment, `has_results_table` that a
`</table>` closing the `results-table` is found, and `jsonblob` the
parsed `data-jsonblob` attribute (`none` when the attribute is missing
or fails to parse). -/
structure HtmlReport where
  has_results_table : Bool
  rows : List HtmlRow
  malformed_done : Bool
  ran_in : Option Nat
  took : Option Nat
  failed_str : Option Nat
  jsonblob : Option (List BlobTest)
  reload_hidden : Bool
  deriving Repr, DecidableEq

/-- The abort row inserted into the results table. -/
def abort_row (testfile : String) (info : AbortInfo) : HtmlRow where
  result := "Failed"
  name := "tests/" ++ testfile ++ ".py::" ++ info.test_name
  dur := duration_str info.duration

/-- The abort entry added to the `data-jsonblob` test collection; its
`id` is `test_<n>` for `n` the current collection size. -/
def blob_test (testfile : String) (info : AbortInfo) (tid : String) :
    BlobTest where
  testId := "tests/" ++ testfile ++ ".py::" ++ info.test_name
  id := tid
  log := "Test aborted: " ++ info.reason ++ "\\nAbort detected at: " ++
    info.abort_time ++ "\\nGPU ID: " ++ info.gpu_id
  result := "failed"

/-- The fresh abort-only document built by `_create_new_html_file`: one
row, run-count string `"1 tests took …"`, summary string `"1 Failed,"`,
a one-entry `data-jsonblob` collection, and the reload button hidden. -/
def create_new_html_file (testfile : String) (info : AbortInfo) :
    HtmlReport where
  has_results_table := true
  rows := [abort_row testfile info]
  malformed_done := false
  ran_in := none
  took := some 1
  failed_str := some 1
  jsonblob := some [blob_test testfile info "test_0"]
  reload_hidden := true

/-- Embedding of `append_abort_to_html`.  `none` models a missing file
(the read-error fallbacks build the same fresh document).  When the
document has no `results-table` closing tag the code falls back to
`_create_new_html_file`.  Otherwise: the abort row is inserted at the
end of the results table; a malformed `"X/Y test done."` fragment is
first rewritten to `"1 tests took 00:00:01."`; the `"N tests ran in"`,
`"N tests took"` and `"N Failed"` counters are each incremented when
present (the `"0 Failed,"` string replacement of the no-match branch is
a no-op, since a digit-Failed string present would have matched); the
`data-jsonblob` collection gains one abort entry when parseable; and
the reload button is forced hidden. -/
def append_abort_to_html (existing : Option HtmlReport) (testfile : String)
    (info : AbortInfo) : HtmlReport :=
  match existing with
  | none => create_new_html_file testfile info
  | some d =>
    if d.has_results_table then
      let d1 := { d with rows := d.rows ++ [abort_row testfile info] }
      let d2 :=
        if d1.malformed_done then
          { d1 with malformed_done := false, took := some (d1.took.getD 1) }
        else d1
      let d3 := { d2 with ran_in := d2.ran_in.map (· + 1) }
      let d4 := { d3 with took := d3.took.map (· + 1) }
      let d5 := { d4 with failed_str := d4.failed_str.map (· + 1) }
      let d6 :=
        match d5.jsonblob with
        | some ts =>
            let entry := blob_test testfile info ("test_" ++ toString ts.length)
            { d5 with jsonblob := some (ts ++ [entry]) }
        | none => d5
      { d6 with reload_hidden := true }
    else create_new_html_file testfile info

/-- Number of rows of a results table whose result cell is `"Failed"`. -/
def countFailedRows (l : List HtmlRow) : Nat :=
  (l.filter (fun r => r.result = "Failed")).length

/-- An HTML report is consistent when it is structurally well formed
(results table present, no malformed run-count fragment), its run-count
strings equal the number of table rows (the legacy `"ran in"` counter
when present), its `"N Failed"` string equals the number of failed
rows, and its embedded `data-jsonblob` collection has one entry per
table row. -/
def html_consistent (d : HtmlReport) : Bool :=
  d.has_results_table && !d.malformed_done &&
    (match d.ran_in with
     | some n => n == d.rows.length
     | none => true) &&
    d.took == some d.rows.length &&
    d.failed_str == some (countFailedRows d.rows) &&
    (match d.jsonblob with
     | some ts => ts.length == d.rows.length
     | none => false)

end RunSingleGpu

namespace RunSingleGpu

/-- A sample passed test case used by concrete witnesses. -/
def samplePassedCase : TestCase where
  nodeid := "tests/x.py::test_ok"
  lineno := 1
  outcome := "passed"
  keywords := []
  setup := { duration := 0, outcome := "passed", longrepr := none }
  call := { duration := 1, outcome := "passed", longrepr := none }
  teardown := { duration := 0, outcome := "passed", longrepr := none }

/-- A sample consistent JSON report (three passed cases, summary
`{passed: 3, failed: 0, total: 3, collected: 3}`). -/
def sampleConsistentReport : Report :=
  { sampleReport with
      tests := some [samplePassedCase, samplePassedCase, samplePassedCase] }

/-- A sample consistent HTML report (one passed row). -/
def sampleHtml : HtmlReport where
  has_results_table := true
  rows := [{ result := "Passed", name := "tests/x.py::test_ok", dur := "00:00:01" }]
  malformed_done := false
  ran_in := some 1
  took := some 1
  failed_str := some 0
  jsonblob := some
    [{ testId := "tests/x.py::test_ok", id := "test_0", log := "", result := "passed" }]
  reload_hidden := true

/-- C5: the abort patches keep summary counters equal to the case-list
counts: patching a consistent JSON report or a consistent HTML report
yields a consistent one, and the freshly created documents of both
patches are consistent. -/
theorem counters_match_case_lists (now : Int) (r : Report) (d : HtmlReport)
    (tf : String) (info : AbortInfo)
    (hr : json_consistent r = true) (hd : html_consistent d = true) :
    json_consistent (append_abort_to_json now (some r) tf info) = true ∧
    json_consistent (append_abort_to_json now none tf info) = true ∧
    html_consistent (append_abort_to_html (some d) tf info) = true ∧
    html_consistent (append_abort_to_html none tf info) = true := by
  refine ⟨?_, ?_, ?_, ?_⟩
  · cases hsum : r.summary with
    | none => simp [json_consistent, hsum] at hr
    | some s =>
      cases hts : r.tests with
      | none => simp [json_consistent, hsum, hts] at hr
      | some l =>
        simp [json_consistent, hsum, hts] at hr
        obtain ⟨⟨h1, h2⟩, h3⟩ := hr
        simp [json_consistent, append_abort_to_json, hsum, hts, bump_summary,
          h1, h2, h3, countFailed, List.filter_append, abort_test]
  · simp [json_consistent, append_abort_to_json, fresh_abort_report,
      countFailed, abort_test]
  · obtain ⟨htab, rows, mal, ran, took, fstr, blob, rel⟩ := d
    cases htab <;> cases mal <;> cases blob <;> cases ran <;>
      simp [html_consistent] at hd <;>
      simp [append_abort_to_html, html_consistent, countFailedRows,
        List.filter_append, abort_row, hd]
  · simp [append_abort_to_html, html_consistent, create_new_html_file,
      countFailedRows, abort_row]

/-- Witness for C5 at a concrete consistent JSON report and a concrete
consistent HTML report. -/
theorem counters_match_case_lists_witness :
    json_consistent (append_abort_to_json 7 (some sampleConsistentReport) "x" sampleInfo) = true ∧
    json_consistent (append_abort_to_json 7 none "x" sampleInfo) = true ∧
    html_consistent (append_abort_to_html (some sampleHtml) "x" sampleInfo) = true ∧
    html_consistent (append_abort_to_html none "x" sampleInfo) = true :=
  counters_match_case_lists 7 sampleConsistentReport sampleHtml "x" sampleInfo
    (by decide) (by decide)

end RunSingleGpu

namespace RunSingleGpu

/-- The `LAST_CODE` update performed in the release section of
`run_test` under `GPU_LOCK`: the module's return code is recorded only
when no code is recorded yet (`LAST_CODE == 0`) and the batch is not in
continue-on-fail mode. -/
def update_last_code (last : Int) (continue_on_fail : Bool) (ret : Int) : Int :=
  if last = 0 then (if continue_on_fail = false then ret else last) else last

/-- The final `LAST_CODE` (passed to `exit` by `main`) after the
release sections of the workers have executed in mutex-acquisition
order `codes`, starting from the initial value 0 set at module load. -/
def final_last_code (continue_on_fail : Bool) (codes : List Int) : Int :=
  codes.foldl (fun last ret => update_last_code last continue_on_fail ret) 0

/-- The first non-zero entry of a code sequence, 0 when there is none. -/
def firstNonZero (codes : List Int) : Int :=
  match codes with
  | [] => 0
  | c :: cs => if c = 0 then firstNonZero cs else c

/-- A non-zero `LAST_CODE` absorbs every later update. -/
theorem foldl_update_of_ne_zero (cont : Bool) (codes : List Int) (last : Int)
    (h : last ≠ 0) :
    codes.foldl (fun l r => update_last_code l cont r) last = last := by
  induction codes with
  | nil => rfl
  | cons c cs ih => simpa [update_last_code, h] using ih

/-- In fail-fast mode the fold computes the first non-zero code. -/
theorem final_last_code_fail_fast (codes : List Int) :
    final_last_code false codes = firstNonZero codes := by
  unfold final_last_code
  induction codes with
  | nil => rfl
  | cons c cs ih =>
    by_cases hc : c = 0
    · simpa [update_last_code, hc, firstNonZero] using ih
    · have h1 : update_last_code 0 false c = c := by simp [update_last_code]
      simp only [List.foldl_cons, h1, firstNonZero, if_neg hc]
      exact foldl_update_of_ne_zero false cs c hc

/-- In continue-on-fail mode the fold never records a code. -/
theorem final_last_code_continue (codes : List Int) :
    final_last_code true codes = 0 := by
  unfold final_last_code
  induction codes with
  | nil => rfl
  | cons c cs ih => simp [update_last_code]

end RunSingleGpu

namespace RunSingleGpu

/-- C3: the terminal exit code (`exit(LAST_CODE)` in `main`) is 0 when
the failure code was never set, and otherwise the first non-zero module
exit code in the order the workers won the `GPU_LOCK` race; once set
non-zero, `LAST_CODE` is never modified by a later worker. -/
theorem terminal_exit_code (codes : List Int) (cont : Bool) (last ret : Int)
    (h : last ≠ 0) :
    final_last_code false codes = firstNonZero codes ∧
    final_last_code true codes = 0 ∧
    update_last_code last cont ret = last := by
  refine ⟨final_last_code_fail_fast codes, final_last_code_continue codes, ?_⟩
  simp [update_last_code, h]

/-- Witness for C3 at a concrete code sequence. -/
theorem terminal_exit_code_witness :
    final_last_code false [0, 2, 3] = firstNonZero [0, 2, 3] ∧
    final_last_code true [0, 2, 3] = 0 ∧
    update_last_code 5 false 7 = 5 :=
  terminal_exit_code [0, 2, 3] false 5 7 (by decide)

end RunSingleGpu

namespace RunSingleGpu

/-- Result of the `run_shell_command` step as observed by `run_test`:
either a normal return of (exit code, stderr, stdout) — a failing test
is a normal return — or a raised local exception (for instance
`FileNotFoundError` from `subprocess.run`, or `UnicodeDecodeError` from
decoding the captured streams). -/
inductive RunnerResult where
  | ok (code : Int) (err out : String)
  | raised (exc : String)
  deriving Repr, DecidableEq

/-- The shared state touched by one `run_test` invocation: the free GPU
token list and the `LAST_CODE` global. -/
structure GpuPool where
  gpu_tokens : List Nat
  last_code : Int
  deriving Repr, DecidableEq

/-- Embedding of one `run_test` invocation as its effect on the shared
pool state.  Under the lock: return unchanged when `LAST_CODE` is
already non-zero, otherwise `pop()` the last token (an empty list
raises `IndexError`).  Then the subprocess step runs; `run_test` wraps
no `try`/`finally` around it, so a raised exception propagates with the
popped token still absent from the pool (the error value carries the
pool state left behind).  On a normal return the abort-sentinel block
runs inside `try`/`except` (its exceptions are swallowed), and the
release section appends the token and updates `LAST_CODE`. -/
def run_test_slot (st : GpuPool) (cont : Bool) (runner : RunnerResult) :
    Except (String × GpuPool) GpuPool :=
  if st.last_code ≠ 0 then Except.ok st
  else
    match st.gpu_tokens.getLast? with
    | none =>
        Except.error ("IndexError: pop from empty list",
          { st with gpu_tokens := st.gpu_tokens.dropLast })
    | some g =>
      let acquired : GpuPool := { st with gpu_tokens := st.gpu_tokens.dropLast }
      match runner with
      | .raised exc => Except.error (exc, acquired)
      | .ok code _ _ =>
          Except.ok
            { gpu_tokens := acquired.gpu_tokens ++ [g]
              last_code := update_last_code st.last_code cont code }

/-- The free token list left in the shared state after an invocation,
whether it returned or raised. -/
def pool_after (r : Except (String × GpuPool) GpuPool) : List Nat :=
  match r with
  | .ok st => st.gpu_tokens
  | .error (_, st) => st.gpu_tokens

end RunSingleGpu

namespace RunSingleGpu

/-- Counterexample to C1 as stated: with one free token and a runner
step that raises, the invocation exits with the acquired token absent
from the pool — there is no `finally` in `run_test`, so this exit path
does not return the slot. -/
theorem slot_leak_counterexample :
    run_test_slot { gpu_tokens := [3], last_code := 0 } false
        (RunnerResult.raised "FileNotFoundError") =
      Except.error ("FileNotFoundError", { gpu_tokens := [], last_code := 0 }) ∧
    3 ∉ pool_after (run_test_slot { gpu_tokens := [3], last_code := 0 } false
        (RunnerResult.raised "FileNotFoundError")) := by
  exact ⟨rfl, by decide⟩

/-- C1 amended: when the subprocess step returns normally — a failing
module included, and abort-processing errors included since the
sentinel block swallows its exceptions — the acquired token is back in
the pool when the invocation ends, so repeated failing runs do not
starve the pool; but when the subprocess step itself raises, the popped
token is not returned (no `finally`). -/
theorem slot_release_on_normal_return (st : GpuPool) (cont : Bool)
    (code : Int) (e o : String) (g : Nat)
    (hg : st.gpu_tokens.getLast? = some g) (hc : st.last_code = 0) :
    run_test_slot st cont (RunnerResult.ok code e o) =
      Except.ok { gpu_tokens := st.gpu_tokens.dropLast ++ [g]
                  last_code := update_last_code st.last_code cont code } ∧
    pool_after (run_test_slot st cont (RunnerResult.ok code e o)) =
      st.gpu_tokens := by
  have h1 : run_test_slot st cont (RunnerResult.ok code e o) =
      Except.ok { gpu_tokens := st.gpu_tokens.dropLast ++ [g]
                  last_code := update_last_code st.last_code cont code } := by
    simp [run_test_slot, hc, hg]
  refine ⟨h1, ?_⟩
  rw [h1, pool_after]
  have hne : st.gpu_tokens ≠ [] := by
    intro h
    rw [h] at hg
    simp at hg
  have h2 := List.getLast?_eq_getLast st.gpu_tokens hne
  rw [hg] at h2
  have h3 : g = st.gpu_tokens.getLast hne := Option.some_inj.mp h2
  rw [h3]
  exact List.dropLast_append_getLast hne

/-- Witness for the amended C1 at a concrete two-token pool. -/
theorem slot_release_on_normal_return_witness :
    run_test_slot { gpu_tokens := [0, 1], last_code := 0 } false
        (RunnerResult.ok 1 "" "") =
      Except.ok { gpu_tokens := List.dropLast [0, 1] ++ [1]
                  last_code := update_last_code 0 false 1 } ∧
    pool_after (run_test_slot { gpu_tokens := [0, 1], last_code := 0 } false
        (RunnerResult.ok 1 "" "")) = [0, 1] :=
  slot_release_on_normal_return { gpu_tokens := [0, 1], last_code := 0 }
    false 1 "" "" 1 rfl rfl

end RunSingleGpu

namespace RunSingleGpu

/-- Phase of one worker thread of the `ThreadPoolExecutor(max_workers=p)`
created by `run_parallel`: between `run_test` calls (`idle`) or inside
a `run_test` invocation for module `m` holding GPU token `gpu`. -/
inductive Phase where
  | idle : Phase
  | running (m : String) (gpu : Nat) : Phase
  deriving Repr, DecidableEq

/-- The state shared by the worker threads: the free `gpu_tokens` list,
the `LAST_CODE` global, the queue of submitted modules not yet picked
up, and the phase of each worker thread. -/
structure SchedState where
  gpu_tokens : List Nat
  last_code : Int
  queue : List String
  workers : List Phase
  deriving Repr, DecidableEq

/-- GPU tokens currently held by in-flight `run_test` invocations. -/
def held_tokens (ws : List Phase) : List Nat :=
  ws.filterMap (fun w => match w with
    | Phase.running _ g => some g
    | Phase.idle => none)

/-- Number of worker threads currently inside a module run. -/
def running_count (ws : List Phase) : Nat :=
  (ws.filter (fun w => match w with
    | Phase.running _ _ => true
    | Phase.idle => false)).length

/-- Interleaving semantics of the batch; each constructor is one
critical section of a worker thread.  `skip`: a worker picks up the
next submitted module, sees `LAST_CODE ≠ 0` in the locked check at the
top of `run_test`, and returns without acquiring a slot.  `popFail`:
it sees `LAST_CODE = 0` but the free list is empty, so `pop()` raises
`IndexError` inside the `with GPU_LOCK` block; the executor catches the
exception and the thread moves to the next task with nothing else
changed (this exit is reachable only after a token leak).  `acquire`:
it sees `LAST_CODE = 0` and `pop()`s the last free token.  `crash`:
the subprocess step of an in-flight run raises (`run_test` wraps no
`try`/`finally` around it); the exception propagates into the worker's
future, the thread moves on, and the held token is lost — neither
returned to the free list nor held any longer, with `LAST_CODE`
untouched.  `finish`: an in-flight run ends normally; in its release
section under `GPU_LOCK` the worker appends its token and applies the
`LAST_CODE` update for the module's return code `ret`.  No transition
mutates another worker's running phase: the scheduler never kills an
in-flight subprocess. -/
inductive Step (cont : Bool) : SchedState → SchedState → Prop where
  | skip (s : SchedState) (w₁ w₂ : List Phase) (m : String) (q : List String)
      (hw : s.workers = w₁ ++ Phase.idle :: w₂) (hq : s.queue = m :: q)
      (hc : s.last_code ≠ 0) :
      Step cont s { s with queue := q }
  | popFail (s : SchedState) (w₁ w₂ : List Phase) (m : String)
      (q : List String)
      (hw : s.workers = w₁ ++ Phase.idle :: w₂) (hq : s.queue = m :: q)
      (hc : s.last_code = 0) (ht : s.gpu_tokens = []) :
      Step cont s { s with queue := q }
  | acquire (s : SchedState) (w₁ w₂ : List Phase) (m : String)
      (q : List String) (g : Nat) (ts : List Nat)
      (hw : s.workers = w₁ ++ Phase.idle :: w₂) (hq : s.queue = m :: q)
      (hc : s.last_code = 0) (ht : s.gpu_tokens = ts ++ [g]) :
      Step cont s { s with queue := q, gpu_tokens := ts,
                           workers := w₁ ++ Phase.running m g :: w₂ }
  | crash (s : SchedState) (w₁ w₂ : List Phase) (m : String) (g : Nat)
      (hw : s.workers = w₁ ++ Phase.running m g :: w₂) :
      Step cont s { s with workers := w₁ ++ Phase.idle :: w₂ }
  | finish (s : SchedState) (w₁ w₂ : List Phase) (m : String) (g : Nat)
      (ret : Int) (hw : s.workers = w₁ ++ Phase.running m g :: w₂) :
      Step cont s { s with gpu_tokens := s.gpu_tokens ++ [g],
                           last_code := update_last_code s.last_code cont ret,
                           workers := w₁ ++ Phase.idle :: w₂ }

/-- The state set up by `run_parallel`: free tokens `range p`,
`LAST_CODE = 0`, all discovered modules submitted, `p` idle worker
threads. -/
def init_state (p : Nat) (modules : List String) : SchedState where
  gpu_tokens := List.range p
  last_code := 0
  queue := modules
  workers := List.replicate p Phase.idle

/-- States reachable by some interleaving of the worker threads. -/
def Reachable (cont : Bool) (p : Nat) (modules : List String)
    (s : SchedState) : Prop :=
  Relation.ReflTransGen (Step cont) (init_state p modules) s

/-- Pool invariant: the worker list has the thread-pool size and the
free and held tokens together form a sub-permutation of the initial
pool — tokens are never duplicated, though a crash exit may lose one
for good. -/
def PoolInv (p : Nat) (s : SchedState) : Prop :=
  s.workers.length = p ∧
  (s.gpu_tokens ++ held_tokens s.workers).Subperm (List.range p)

/-- Idle workers hold no token. -/
theorem held_tokens_replicate (p : Nat) :
    held_tokens (List.replicate p Phase.idle) = [] := by
  induction p with
  | zero => rfl
  | succ n ih => simp [List.replicate_succ, held_tokens] at ih ⊢

/-- held tokens split over a list decomposition. -/
theorem held_tokens_append (a b : List Phase) :
    held_tokens (a ++ b) = held_tokens a ++ held_tokens b := by
  simp [held_tokens]

/-- running count splits over a list decomposition. -/
theorem running_count_append (a b : List Phase) :
    running_count (a ++ b) = running_count a + running_count b := by
  simp [running_count, List.filter_append]

/-- One step preserves the pool invariant: the acquire and finish
steps move one token between the free list and a worker, the crash
step drops one held token, and the remaining steps leave both parts
unchanged. -/
theorem step_preserves_poolInv {cont : Bool} {p : Nat} {s s' : SchedState}
    (h : Step cont s s') (hi : PoolInv p s) : PoolInv p s' := by
  obtain ⟨hlen, hsub⟩ := hi
  cases h with
  | skip w₁ w₂ m q hw hq hc => exact ⟨hlen, hsub⟩
  | popFail w₁ w₂ m q hw hq hc ht => exact ⟨hlen, hsub⟩
  | acquire w₁ w₂ m q g ts hw hq hc ht =>
    constructor
    · rw [hw] at hlen
      simpa using hlen
    · refine List.Subperm.trans ?_ hsub
      rw [List.subperm_ext_iff]
      intro x hx
      rw [hw, ht]
      simp [held_tokens_append, held_tokens, List.count_append,
        List.count_cons]
      omega
  | crash w₁ w₂ m g hw =>
    constructor
    · rw [hw] at hlen
      simpa using hlen
    · refine List.Subperm.trans ?_ hsub
      rw [List.subperm_ext_iff]
      intro x hx
      rw [hw]
      simp [held_tokens_append, held_tokens, List.count_append,
        List.count_cons]
  | finish w₁ w₂ m g ret hw =>
    constructor
    · rw [hw] at hlen
      simpa using hlen
    · refine List.Subperm.trans ?_ hsub
      rw [List.subperm_ext_iff]
      intro x hx
      rw [hw]
      simp [held_tokens_append, held_tokens, List.count_append,
        List.count_cons]
      omega

/-- The pool invariant holds in every reachable state. -/
theorem reachable_poolInv (cont : Bool) (p : Nat) (modules : List String)
    (s : SchedState) (h : Reachable cont p modules s) : PoolInv p s := by
  induction h with
  | refl =>
    constructor
    · simp [init_state]
    · simp only [init_state, held_tokens_replicate, List.append_nil]
      exact List.Subperm.refl _
  | tail hab hbc ih => exact step_preserves_poolInv hbc ih

end RunSingleGpu

namespace RunSingleGpu

/-- An idle worker contributes nothing to the running count. -/
theorem running_count_cons_idle (l : List Phase) :
    running_count (Phase.idle :: l) = running_count l := by
  simp [running_count, List.filter_cons]

/-- A running worker contributes one to the running count. -/
theorem running_count_cons_running (m : String) (g : Nat) (l : List Phase) :
    running_count (Phase.running m g :: l) = running_count l + 1 := by
  simp [running_count, List.filter_cons]

/-- C6: in every reachable state — interleavings with crash exits and
`pop()` failures included — at most `p` modules run concurrently, the
held slot tokens are pairwise distinct — each slot is held by at most
one in-flight `run_test` invocation — and free plus held tokens
together form a sub-permutation of the initial `p`-slot pool (never
duplicated; a crash may lose one). -/
theorem concurrency_bound_and_slot_exclusivity (cont : Bool) (p : Nat)
    (modules : List String) (s : SchedState)
    (h : Reachable cont p modules s) :
    running_count s.workers ≤ p ∧
    (held_tokens s.workers).Nodup ∧
    (s.gpu_tokens ++ held_tokens s.workers).Subperm (List.range p) := by
  obtain ⟨hlen, hsub⟩ := reachable_poolInv cont p modules s h
  refine ⟨?_, ?_, hsub⟩
  · calc running_count s.workers ≤ s.workers.length :=
          List.length_filter_le _ _
      _ = p := hlen
  · obtain ⟨l, hlp, hls⟩ := hsub
    have hl : l.Nodup := (List.nodup_range p).sublist hls
    have hnd : (s.gpu_tokens ++ held_tokens s.workers).Nodup :=
      (hlp.nodup_iff).mp hl
    exact hnd.of_append_right

/-- Witness for C6 at the initial state of a 2-slot, 3-module batch. -/
theorem concurrency_bound_and_slot_exclusivity_witness :
    running_count (init_state 2 ["m1", "m2", "m3"]).workers ≤ 2 ∧
    (held_tokens (init_state 2 ["m1", "m2", "m3"]).workers).Nodup ∧
    ((init_state 2 ["m1", "m2", "m3"]).gpu_tokens ++
        held_tokens (init_state 2 ["m1", "m2", "m3"]).workers).Subperm
      (List.range 2) :=
  concurrency_bound_and_slot_exclusivity false 2 ["m1", "m2", "m3"]
    (init_state 2 ["m1", "m2", "m3"]) Relation.ReflTransGen.refl

/-- A non-zero `LAST_CODE` is unchanged by any single step. -/
theorem step_last_code_mono {cont : Bool} {s s' : SchedState}
    (h : Step cont s s') (hnz : s.last_code ≠ 0) :
    s'.last_code = s.last_code := by
  cases h with
  | skip w₁ w₂ m q hw hq hc => rfl
  | popFail w₁ w₂ m q hw hq hc ht => exact absurd hc hnz
  | acquire w₁ w₂ m q g ts hw hq hc ht => exact absurd hc hnz
  | crash w₁ w₂ m g hw => rfl
  | finish w₁ w₂ m g ret hw => simp [update_last_code, hnz]

/-- When the failure code is non-zero, no step increases the number of
in-flight modules. -/
theorem step_running_count_le {cont : Bool} {s s' : SchedState}
    (h : Step cont s s') (hnz : s.last_code ≠ 0) :
    running_count s'.workers ≤ running_count s.workers := by
  cases h with
  | skip w₁ w₂ m q hw hq hc => exact le_refl _
  | popFail w₁ w₂ m q hw hq hc ht => exact absurd hc hnz
  | acquire w₁ w₂ m q g ts hw hq hc ht => exact absurd hc hnz
  | crash w₁ w₂ m g hw =>
    rw [hw]
    show running_count (w₁ ++ Phase.idle :: w₂) ≤
      running_count (w₁ ++ Phase.running m g :: w₂)
    rw [running_count_append, running_count_append,
      running_count_cons_idle, running_count_cons_running]
    omega
  | finish w₁ w₂ m g ret hw =>
    rw [hw]
    show running_count (w₁ ++ Phase.idle :: w₂) ≤
      running_count (w₁ ++ Phase.running m g :: w₂)
    rw [running_count_append, running_count_append,
      running_count_cons_idle, running_count_cons_running]
    omega

/-- The only step that increases the number of in-flight modules is an
acquire, whose locked check saw `LAST_CODE = 0`. -/
theorem step_inc_requires_zero {cont : Bool} {u u' : SchedState}
    (h : Step cont u u')
    (hinc : running_count u.workers < running_count u'.workers) :
    u.last_code = 0 := by
  cases h with
  | skip w₁ w₂ m q hw hq hc => exact absurd hinc (lt_irrefl _)
  | popFail w₁ w₂ m q hw hq hc ht => exact hc
  | acquire w₁ w₂ m q g ts hw hq hc ht => exact hc
  | crash w₁ w₂ m g hw =>
    rw [hw] at hinc
    rw [running_count_append, running_count_append,
      running_count_cons_idle, running_count_cons_running] at hinc
    omega
  | finish w₁ w₂ m g ret hw =>
    rw [hw] at hinc
    rw [running_count_append, running_count_append,
      running_count_cons_idle, running_count_cons_running] at hinc
    omega

/-- Along any continuation of a state with a non-zero failure code, the
code is unchanged and the number of in-flight modules never grows. -/
theorem rtg_fail_fast {cont : Bool} {s t : SchedState}
    (htr : Relation.ReflTransGen (Step cont) s t) (hnz : s.last_code ≠ 0) :
    t.last_code = s.last_code ∧
    running_count t.workers ≤ running_count s.workers := by
  induction htr with
  | refl => exact ⟨rfl, le_refl _⟩
  | tail hab hbc ih =>
    obtain ⟨h1, h2⟩ := ih
    exact ⟨(step_last_code_mono hbc (by rw [h1]; exact hnz)).trans h1,
      le_trans (step_running_count_le hbc (by rw [h1]; exact hnz)) h2⟩

end RunSingleGpu

namespace RunSingleGpu

/-- C4: once the batch failure code is non-zero it never changes along
any continuation of the run and the number of in-flight modules never
increases — the only step that starts a module is an acquire whose
locked check (at the top of `run_test`, under `GPU_LOCK`, before the
slot pop) saw `LAST_CODE = 0` — while a module already in flight can
still take its normal completion step, which returns its token to the
pool: in-flight runs complete and are never killed. -/
theorem fail_fast_no_new_dispatch (cont : Bool) (s t u u' t' : SchedState)
    (w₁ w₂ : List Phase) (m : String) (g : Nat) (ret : Int)
    (htr : Relation.ReflTransGen (Step cont) s t) (hnz : s.last_code ≠ 0)
    (hstep : Step cont u u')
    (hinc : running_count u.workers < running_count u'.workers)
    (hdec : t.workers = w₁ ++ Phase.running m g :: w₂)
    (ht' : t' = { t with gpu_tokens := t.gpu_tokens ++ [g],
                         last_code := update_last_code t.last_code cont ret,
                         workers := w₁ ++ Phase.idle :: w₂ }) :
    t.last_code = s.last_code ∧
    running_count t.workers ≤ running_count s.workers ∧
    u.last_code = 0 ∧
    Step cont t t' ∧ t'.workers = w₁ ++ Phase.idle :: w₂ ∧
    t'.gpu_tokens = t.gpu_tokens ++ [g] := by
  obtain ⟨h1, h2⟩ := rtg_fail_fast htr hnz
  refine ⟨h1, h2, step_inc_requires_zero hstep hinc, ?_, ?_, ?_⟩
  · rw [ht']
    exact Step.finish t w₁ w₂ m g ret hdec
  · rw [ht']
  · rw [ht']

/-- Sample state with the failure code set and one module in flight. -/
def sFail : SchedState := ⟨[], 1, [], [Phase.running "m" 0]⟩

/-- Sample state with a clear failure code and an idle worker. -/
def sIdle : SchedState := ⟨[5], 0, ["m"], [Phase.idle]⟩

/-- The state `sIdle` reaches by the acquire step. -/
def sAcq : SchedState := ⟨[], 0, [], [Phase.running "m" 5]⟩

/-- The state `sFail` reaches by the completion step. -/
def sDone : SchedState := ⟨[0], 1, [], [Phase.idle]⟩

/-- Witness for C4 at concrete states: `sFail` has the failure code
set with one in-flight module, which completes into `sDone`; the
acquire step from `sIdle` shows a dispatch requires a clear code. -/
theorem fail_fast_no_new_dispatch_witness :
    sFail.last_code = sFail.last_code ∧
    running_count sFail.workers ≤ running_count sFail.workers ∧
    sIdle.last_code = 0 ∧
    Step false sFail sDone ∧ sDone.workers = [] ++ Phase.idle :: [] ∧
    sDone.gpu_tokens = sFail.gpu_tokens ++ [0] :=
  fail_fast_no_new_dispatch false sFail sFail sIdle sAcq sDone [] [] "m" 0 0
    Relation.ReflTransGen.refl (by decide)
    (Step.acquire sIdle [] [] "m" [] 5 [] rfl rfl rfl rfl)
    (by decide) rfl (by decide)

end RunSingleGpu

namespace RunSingleGpu

/-- Python `str.endswith`, as a suffix test on the character
sequences. -/
def ends_with (s suffix : String) : Bool :=
  List.isSuffixOf suffix.data s.data

/-- A JSON value stored in a file of `base_dir`: a per-module pytest
report, the combined list document written by `combine_json_reports`,
or any other content (HTML logs, sentinels, the collect log). -/
inductive JsonVal where
  | report (r : Report)
  | agg (l : List JsonVal)
  | misc (tag : String)

/-- The output directory as a listing of (file name, content) pairs in
`os.listdir` order. -/
abbrev Dir := List (String × JsonVal)

/-- The input selection of `combine_json_reports`: the loaded contents
of the files of `base_dir` whose name ends in `"_log.json"`, in listing
order. -/
def combine_json_inputs (dir : Dir) : List JsonVal :=
  (dir.filter (fun f => ends_with f.1 "_log.json")).map (·.2)

/-- Writing a file with `open(path, "w")`: truncate the existing entry
in place, or create a new one. -/
def write_file (dir : Dir) (name : String) (c : JsonVal) : Dir :=
  if dir.any (fun f => f.1 = name) then
    dir.map (fun f => if f.1 = name then (name, c) else f)
  else dir ++ [(name, c)]

/-- Embedding of `combine_json_reports`: load every `*_log.json` file
of `base_dir` into a combined list document and write it to
`final_compiled_report.json` in the same directory. -/
def combine_json_reports (dir : Dir) : Dir :=
  write_file dir "final_compiled_report.json" (.agg (combine_json_inputs dir))

/-- Filtering by a name predicate ignores a rewrite that only changes
the content of entries whose name the predicate rejects. -/
theorem filter_map_write (p : String → Bool) (name : String) (c : JsonVal)
    (dir : Dir) (hp : p name = false) :
    (dir.map (fun f => if f.1 = name then (name, c) else f)).filter
        (fun f => p f.1) =
      dir.filter (fun f => p f.1) := by
  induction dir with
  | nil => rfl
  | cons hd tl ih =>
    by_cases h : hd.1 = name
    · simp [h, hp, ih]
    · by_cases h2 : p hd.1
      · simp [h, h2, ih]
      · simp [h, h2, ih]

/-- The aggregate write does not change the `*_log.json` selection:
its file name does not carry the suffix. -/
theorem combine_inputs_stable (dir : Dir) :
    combine_json_inputs (combine_json_reports dir) =
      combine_json_inputs dir := by
  have hsuf : ends_with "final_compiled_report.json" "_log.json" = false := by
    decide
  unfold combine_json_reports write_file
  cases hany : dir.any (fun f => f.1 = "final_compiled_report.json") with
  | true =>
    simp only [hany, if_true]
    unfold combine_json_inputs
    rw [filter_map_write (fun s => ends_with s "_log.json")
      "final_compiled_report.json" _ dir hsuf]
  | false =>
    simp only [hany, Bool.false_eq_true, if_false]
    unfold combine_json_inputs
    rw [List.filter_append]
    simp [hsuf]

end RunSingleGpu

namespace RunSingleGpu

/-- Writing the same file twice with the same content equals writing it
once. -/
theorem write_file_idem (dir : Dir) (name : String) (c : JsonVal) :
    write_file (write_file dir name c) name c = write_file dir name c := by
  unfold write_file
  cases hany : dir.any (fun f => f.1 = name) with
  | true =>
    simp only [hany, if_true]
    have hany2 : (dir.map (fun f => if f.1 = name then (name, c) else f)).any
        (fun f => f.1 = name) = true := by
      rw [List.any_eq_true] at hany ⊢
      obtain ⟨f, hf, hfe⟩ := hany
      refine ⟨(name, c), List.mem_map.mpr ⟨f, hf, ?_⟩, by simp⟩
      simp [of_decide_eq_true hfe]
    simp only [hany2, if_true]
    rw [List.map_map]
    apply List.map_congr_left
    intro f _
    by_cases h : f.1 = name <;> simp [h]
  | false =>
    simp only [hany, Bool.false_eq_true, if_false]
    have hany2 : ((dir ++ [(name, c)]).any (fun f => f.1 = name)) = true := by
      rw [List.any_append]
      simp
    simp only [hany2, if_true]
    rw [List.map_append]
    have hall := List.any_eq_false.mp hany
    have hmap : dir.map (fun f => if f.1 = name then (name, c) else f) = dir := by
      calc dir.map (fun f => if f.1 = name then (name, c) else f)
          = dir.map id := List.map_congr_left (fun f hf => by
              have hne : ¬ (f.1 = name) := by simpa using hall f hf
              simp [hne])
        _ = dir := List.map_id dir
    simp [hmap]

/-- C7: the structured-report aggregation is idempotent and
re-runnable: a second `combine_json_reports` run over the directory the
first run produced selects the same `*_log.json` inputs and leaves the
directory exactly as the first run did — in particular the aggregate
file's name does not end in `_log.json`, so it is never picked up as an
input. -/
theorem combine_json_reports_idempotent (dir : Dir) :
    combine_json_inputs (combine_json_reports dir) = combine_json_inputs dir ∧
    combine_json_reports (combine_json_reports dir) = combine_json_reports dir ∧
    ends_with "final_compiled_report.json" "_log.json" = false := by
  refine ⟨combine_inputs_stable dir, ?_, by decide⟩
  show write_file (combine_json_reports dir) "final_compiled_report.json"
      (.agg (combine_json_inputs (combine_json_reports dir))) =
    combine_json_reports dir
  rw [combine_inputs_stable dir]
  exact write_file_idem dir "final_compiled_report.json"
    (.agg (combine_json_inputs dir))

end RunSingleGpu

namespace RunSingleGpu

/-- Python `{**env, **env_vars}` as a key lookup on the merged
dictionary: a key of `env_vars` wins over the parent environment. -/
def merged_env (env env_vars : List (String × String)) (k : String) :
    Option String :=
  match env_vars.lookup k with
  | some v => some v
  | none => env.lookup k

/-- The `env_vars` dictionary built by `run_test` for the module
subprocess: the device selector is the acquired GPU token and the
allocator mode is the literal `"default"`. -/
def run_test_env_vars (target_gpu : Nat) : List (String × String) :=
  [("HIP_VISIBLE_DEVICES", toString target_gpu),
   ("XLA_PYTHON_CLIENT_ALLOCATOR", "default")]

/-- The environment `run_shell_command` hands to `subprocess.run` for a
module launched by `run_test` on `target_gpu`. -/
def subprocess_env (parent : List (String × String)) (target_gpu : Nat)
    (k : String) : Option String :=
  merged_env parent (run_test_env_vars target_gpu) k

/-- Counterexample to C8 as stated: with the allocator-mode variable
set to `"platform"` in the parent environment, the subprocess sees
`"default"` — the variable is overridden, not passed through. -/
theorem allocator_not_passed_through :
    subprocess_env [("XLA_PYTHON_CLIENT_ALLOCATOR", "platform")] 0
        "XLA_PYTHON_CLIENT_ALLOCATOR" = some "default" ∧
    ¬ (subprocess_env [("XLA_PYTHON_CLIENT_ALLOCATOR", "platform")] 0
          "XLA_PYTHON_CLIENT_ALLOCATOR" =
        List.lookup "XLA_PYTHON_CLIENT_ALLOCATOR"
          [("XLA_PYTHON_CLIENT_ALLOCATOR", "platform")]) := by
  exact ⟨rfl, by decide⟩

/-- C8 amended: every module subprocess sees the device-selector
variable `HIP_VISIBLE_DEVICES` equal to the acquired slot index, and
the allocator-mode variable `XLA_PYTHON_CLIENT_ALLOCATOR` equal to the
constant `"default"`, which overrides any value in the parent
environment. -/
theorem subprocess_env_pins_device (parent : List (String × String))
    (g : Nat) :
    subprocess_env parent g "HIP_VISIBLE_DEVICES" = some (toString g) ∧
    subprocess_env parent g "XLA_PYTHON_CLIENT_ALLOCATOR" =
      some "default" := by
  exact ⟨rfl, rfl⟩

end RunSingleGpu

namespace RunSingleGpu

/-- Result of invoking the external `pytest_html_merger` subprocess:
`absent` models the `FileNotFoundError` raised by `subprocess.run`
when the executable does not exist (the call uses `shell=False`), and
`ran` a process that completed with an exit code. -/
inductive ToolResult where
  | absent
  | ran (code : Int) (err : String)
  deriving Repr, DecidableEq

/-- Embedding of `generate_final_report`: run the HTML merger — a
non-zero exit code is only printed — and then `combine_json_reports`.
Neither `generate_final_report` nor `main` handles a raised
`FileNotFoundError`, so an absent merger propagates and the JSON
aggregation never runs. -/
def generate_final_report (tool : ToolResult) (dir : Dir) :
    Except String Dir :=
  match tool with
  | .absent => Except.error "FileNotFoundError: pytest_html_merger"
  | .ran _ _ => Except.ok (combine_json_reports dir)

/-- Counterexample to C9 as stated: with the merge tool absent, the
call raises instead of logging, and no combined structured document is
produced. -/
theorem absent_merger_aborts :
    generate_final_report ToolResult.absent [] =
      Except.error "FileNotFoundError: pytest_html_merger" ∧
    ∀ d : Dir, generate_final_report ToolResult.absent [] ≠ Except.ok d := by
  refine ⟨rfl, ?_⟩
  intro d h
  cases h

/-- C9 amended: when the merge tool exists, its failure (any exit code)
is tolerated — it is only logged — and the combined structured JSON
aggregate is still produced and present in the directory; but an
absent merge tool raises `FileNotFoundError`, which aborts report
generation before the JSON aggregate is written. -/
theorem merger_failure_tolerated (code : Int) (err : String) (dir : Dir) :
    generate_final_report (ToolResult.ran code err) dir =
      Except.ok (combine_json_reports dir) ∧
    (combine_json_reports dir).any
      (fun f => f.1 = "final_compiled_report.json") = true := by
  refine ⟨rfl, ?_⟩
  unfold combine_json_reports write_file
  cases hany : dir.any (fun f => f.1 = "final_compiled_report.json") with
  | true =>
    simp only [hany, if_true]
    rw [List.any_eq_true] at hany ⊢
    obtain ⟨f, hf, hfe⟩ := hany
    refine ⟨("final_compiled_report.json",
        JsonVal.agg (combine_json_inputs dir)),
      List.mem_map.mpr ⟨f, hf, ?_⟩, by simp⟩
    simp [of_decide_eq_true hfe]
  | false =>
    simp only [hany, Bool.false_eq_true, if_false]
    rw [List.any_append]
    simp

end RunSingleGpu

namespace RunSingleGpu

/-- Embedding of the abort-sentinel block of `run_test` as its effect
on the files of `base_dir`.  When the `*_last_running.json` sentinel
exists it is read and processed; the report patches may write the
module's JSON and HTML log files (`json_written` / `html_written` tell
how far the `try` block got before completing or raising — a raised
exception is caught and only printed).  The `os.remove` of the
sentinel is commented out on the success path, and the error path
deliberately keeps the file, so no branch removes anything. -/
def process_abort_sentinel (files : List String) (testfile : String)
    (json_written html_written : Bool) : List String :=
  if (testfile ++ "_last_running.json") ∈ files then
    files ++ (if json_written then [testfile ++ "_log.json"] else []) ++
      (if html_written then [testfile ++ "_log.html"] else [])
  else files

/-- C10: the abort sentinel survives `run_test`: when it was present
after the subprocess run it is still present afterwards — on successful
abort processing and on a processing error alike — and no file at all
is removed by the sentinel block. -/
theorem sentinel_never_deleted (files : List String) (tf f : String)
    (json_written html_written : Bool)
    (hs : (tf ++ "_last_running.json") ∈ files) (hf : f ∈ files) :
    (tf ++ "_last_running.json") ∈
      process_abort_sentinel files tf json_written html_written ∧
    f ∈ process_abort_sentinel files tf json_written html_written := by
  unfold process_abort_sentinel
  rw [if_pos hs]
  exact ⟨List.mem_append_left _ (List.mem_append_left _ hs),
    List.mem_append_left _ (List.mem_append_left _ hf)⟩

/-- Witness for C10 at a concrete directory, on the error path where
only the JSON patch completed. -/
theorem sentinel_never_deleted_witness :
    ("mod_last_running.json" : String) ∈
      process_abort_sentinel ["mod_last_running.json", "other.txt"] "mod"
        true false ∧
    ("other.txt" : String) ∈
      process_abort_sentinel ["mod_last_running.json", "other.txt"] "mod"
        true false :=
  sentinel_never_deleted ["mod_last_running.json", "other.txt"] "mod"
    "other.txt" true false (by decide) (by decide)

end RunSingleGpu
